import Mathlib

/-!
Shallow embedding of the chest-music player-v2 core: the play-limit gate
(`src/hooks/usePlayLimits.ts`) and the player-bar navigation/seek logic
(`src/components/PlayerBar.tsx`).  JavaScript numbers that only ever hold
server-reported counters are modelled as `Nat` (with `Option` for possibly
`undefined` fields); transport times are modelled as `ℚ`; array indices are
modelled as `ℤ` (JavaScript index arithmetic can go negative).
-/

namespace ChestPlayer

/-- Track descriptor consumed by the gate (`ChestTrack` in the types module):
`plays`, `play_limit` and `token` are optional, modelling JS `undefined`. -/
structure ChestTrack where
  id : String
  token : Option String
  plays : Option Nat
  play_limit : Option Nat
deriving DecidableEq, Repr

/-- `PlayLimitState` from the types module. -/
structure PlayLimitState where
  playCount : Nat
  playLimit : Option Nat
  isLimitReached : Bool
  hasDecremented : Bool
deriving DecidableEq, Repr

/-- The `useState` defaults of `usePlayLimits` (lines 17-20). -/
def initialState : PlayLimitState :=
  { playCount := 0, playLimit := none, isLimitReached := false, hasDecremented := false }

/-- JS `x || null` on an optional number: `undefined` and `0` are falsy. -/
def jsOrNull : Option Nat → Option Nat
  | none => none
  | some n => if n = 0 then none else some n

/-- JS truthiness of an optional number: `undefined` and `0` are falsy. -/
def jsTruthy : Option Nat → Bool
  | none => false
  | some n => decide (n ≠ 0)

/-- The condition `limit && count >= limit` (usePlayLimits.ts lines 38 and 74):
the limit is truthy and the count has met it. -/
def limitMet (limit : Option Nat) (count : Nat) : Bool :=
  match limit with
  | none => false
  | some l => decide (l ≠ 0) && decide (l ≤ count)

/-- The track-change effect of `usePlayLimits` (lines 23-41).  With no track or
outside a shared link every field is cleared.  For a shared track, `playCount`,
`playLimit` and `hasDecremented` are set from the track, but
`setIsLimitReached(true)` runs only when the track already meets its limit;
otherwise the previous `isLimitReached` value stays in place. -/
def initEffect (track : Option ChestTrack) (isSharedLink : Bool)
    (s : PlayLimitState) : PlayLimitState :=
  match track with
  | none => initialState
  | some t =>
    if isSharedLink then
      { playCount := t.plays.getD 0
        playLimit := jsOrNull t.play_limit
        hasDecremented := false
        isLimitReached :=
          if limitMet t.play_limit (t.plays.getD 0) then true else s.isLimitReached }
    else initialState

/-- `canPlay` (line 43): `!isSharedLink || !isLimitReached`. -/
def canPlay (isSharedLink : Bool) (s : PlayLimitState) : Bool :=
  !isSharedLink || !s.isLimitReached

/-- `checkPlayLimit` (lines 45-54): the returned boolean together with the
state after the call (`setIsLimitReached(true)` when the count meets the
limit). -/
def checkPlayLimit (isSharedLink : Bool) (s : PlayLimitState) :
    Bool × PlayLimitState :=
  if !isSharedLink || !(jsTruthy s.playLimit) then (true, s)
  else if s.playLimit.getD 0 ≤ s.playCount then (false, { s with isLimitReached := true })
  else (true, s)

/-- The early-return guard of `decrementPlayCount` (line 57). -/
def decGuard (track : Option ChestTrack) (isSharedLink : Bool)
    (s : PlayLimitState) : Bool :=
  track.isNone || !isSharedLink || s.isLimitReached || s.hasDecremented

/-- The success continuation of `decrementPlayCount` (lines 68-77).  The
callback closure captured the state `cap` when it was invoked; React applies
its `setPlayCount`/`setHasDecremented`/`setIsLimitReached` writes (all computed
from `cap`) to whatever state `cur` is current when the request resolves. -/
def decResolve (cap cur : PlayLimitState) : PlayLimitState :=
  { cur with
    playCount := cap.playCount + 1
    hasDecremented := true
    isLimitReached :=
      if limitMet cap.playLimit (cap.playCount + 1) then true else cur.isLimitReached }

/-- `decrementPlayCount` (lines 56-82) run to completion with no interleaved
invocation, so the captured state is also the state at resolution time.
`outcome` is the report-play request's result: `some b` for a response with
`success = b`, `none` when the request throws (the `catch` path, which logs
and changes nothing).  Returns the new state and whether a network request was
issued. -/
def decrementPlayCount (track : Option ChestTrack) (isSharedLink : Bool)
    (outcome : Option Bool) (s : PlayLimitState) : PlayLimitState × Bool :=
  if decGuard track isSharedLink s then (s, false)
  else
    match outcome with
    | some true => (decResolve s s, true)
    | some false => (s, true)
    | none => (s, true)

/-- Two `decrementPlayCount` invocations in rapid succession: the second is
issued before the first resolves, so both closures capture the same state
`s0` and both evaluate the guard against `s0`.  When the guard blocks, no
request is issued at all; otherwise both requests go out, the first success
continuation is applied to `s0` and the second to the resulting state.
Returns the final state and the number of requests issued. -/
def rapidDouble (track : Option ChestTrack) (isSharedLink : Bool)
    (s0 : PlayLimitState) : PlayLimitState × Nat :=
  if decGuard track isSharedLink s0 then (s0, 0)
  else (decResolve s0 (decResolve s0 s0), 2)

/-- The gate's full configuration: the bound props and the hook state. -/
structure GateConfig where
  track : Option ChestTrack
  isSharedLink : Bool
  state : PlayLimitState
deriving DecidableEq, Repr

/-- The dependency key of the track-change effect (line 41):
`[track?.id, track?.token, isSharedLink]`. -/
def identityKey (track : Option ChestTrack) (isSharedLink : Bool) :
    Option String × Option (Option String) × Bool :=
  (track.map (·.id), track.map (·.token), isSharedLink)

/-- Gate configurations reachable from a mount: the effect runs once on mount
and again on every identity change, and between identity changes the state
evolves by `checkPlayLimit` calls and `decrementPlayCount` calls with
arbitrary request outcomes. -/
inductive Reachable : GateConfig → Prop
  | mount (track : Option ChestTrack) (isSharedLink : Bool) :
      Reachable ⟨track, isSharedLink, initEffect track isSharedLink initialState⟩
  | check (cfg : GateConfig) (h : Reachable cfg) :
      Reachable ⟨cfg.track, cfg.isSharedLink,
        (checkPlayLimit cfg.isSharedLink cfg.state).2⟩
  | record (cfg : GateConfig) (outcome : Option Bool) (h : Reachable cfg) :
      Reachable ⟨cfg.track, cfg.isSharedLink,
        (decrementPlayCount cfg.track cfg.isSharedLink outcome cfg.state).1⟩
  | identityChange (cfg : GateConfig) (track : Option ChestTrack)
      (isSharedLink : Bool) (h : Reachable cfg)
      (hne : identityKey track isSharedLink ≠ identityKey cfg.track cfg.isSharedLink) :
      Reachable ⟨track, isSharedLink, initEffect track isSharedLink cfg.state⟩

/-- The spec's claimed state invariant, as a boolean identity:
`isLimitReached == (playLimit != null && playCount >= playLimit)`. -/
def specLimitInv (s : PlayLimitState) : Prop :=
  s.isLimitReached = (s.playLimit.isSome && decide (s.playLimit.getD 0 ≤ s.playCount))

/-- The spec's claimed characterization of `canPlay`: not a shared link, or no
limit, or the count is still below the limit. -/
def specCanPlay (isSharedLink : Bool) (s : PlayLimitState) : Bool :=
  !isSharedLink || !s.playLimit.isSome || decide (s.playCount < s.playLimit.getD 0)

/-- Modelled from the spec (claim C4's reading of the re-initialization rule):
all four fields reset from the new track's server-reported counters, with
`isLimitReached` re-derived from them alone. -/
def specResetState (t : ChestTrack) : PlayLimitState :=
  { playCount := t.plays.getD 0
    playLimit := jsOrNull t.play_limit
    hasDecremented := false
    isLimitReached := limitMet t.play_limit (t.plays.getD 0) }

/-! ### PlayerBar (`src/components/PlayerBar.tsx`) -/

/-- The legacy `Track` record rendered by `PlayerBar`. -/
structure Track where
  title : String
  artist : String
  cover : String
  url : String
deriving DecidableEq, Repr

/-- `PlayerState` from the types module (the enhanced variant used by
`PlayerBar`), with the `useState` defaults of lines 38-48 available as
`initialPlayerState`. -/
structure PlayerState where
  isPlaying : Bool
  currentTime : ℚ
  duration : ℚ
  currentTrackIndex : ℤ
  volume : ℚ
  isMuted : Bool
  isLooping : Bool
  isShuffled : Bool
  showVolumeSlider : Bool
deriving DecidableEq, Repr

def initialPlayerState : PlayerState :=
  { isPlaying := false, currentTime := 0, duration := 0, currentTrackIndex := 0
    volume := 1, isMuted := false, isLooping := false, isShuffled := false
    showVolumeSlider := false }

/-- `tracks[playerState.currentTrackIndex]` (line 50): `none` models the JS
`undefined` produced by an out-of-range or negative index. -/
def currentTrack (tracks : List Track) (idx : ℤ) : Option Track :=
  if h : 0 ≤ idx ∧ idx.toNat < tracks.length then some (tracks.get ⟨idx.toNat, h.2⟩)
  else none

/-- Line 338: `if (!currentTrack) return null` — whether the player renders
anything at all. -/
def rendersPlayer (tracks : List Track) (idx : ℤ) : Bool :=
  (currentTrack tracks idx).isSome

/-- The shuffle `do/while` loop of `skipForward`/`skipBackward` (lines
142-144 and 168-170): draw `r k` (the `k`-th value of
`Math.floor(Math.random() * tracks.length)`) and redraw while it equals the
current index and more than one track exists.  `fuel` bounds the number of
redraws actually performed by a terminating run of the loop. -/
def shufflePick (r : ℕ → ℤ) (len : ℕ) (current : ℤ) : ℕ → ℕ → ℤ
  | 0, k => r k
  | fuel + 1, k =>
    if r k = current ∧ 1 < len then shufflePick r len current fuel (k + 1) else r k

/-- `skipForward` (lines 137-151): shuffle draws a fresh index, otherwise
advance by one, wrapping to `0` past the end. -/
def skipForward (len : ℕ) (r : ℕ → ℤ) (fuel : ℕ) (st : PlayerState) : PlayerState :=
  { st with currentTrackIndex :=
      if st.isShuffled then shufflePick r len st.currentTrackIndex fuel 0
      else if st.currentTrackIndex < (len : ℤ) - 1 then st.currentTrackIndex + 1
      else 0 }

/-- `skipBackward` (lines 153-177).  `audioTime` is the transport's reported
position (`audio.currentTime`): past 3 seconds the track restarts (the
transport is also seeked to `0`, mirrored by the `currentTime` field);
otherwise the index moves as in `skipForward` but toward the previous index,
wrapping to `len - 1` at index `0`. -/
def skipBackward (audioTime : ℚ) (len : ℕ) (r : ℕ → ℤ) (fuel : ℕ)
    (st : PlayerState) : PlayerState :=
  if 3 < audioTime then { st with currentTime := 0 }
  else
    { st with currentTrackIndex :=
        if st.isShuffled then shufflePick r len st.currentTrackIndex fuel 0
        else if 0 < st.currentTrackIndex then st.currentTrackIndex - 1
        else (len : ℤ) - 1 }

/-- The two writes performed by `handleProgressInteraction` (lines 180-192):
the transport seek target (`audio.currentTime = newTime`) and the state write
(`setPlayerState(currentTime := newTime)`). -/
structure SeekEffect where
  audioCurrentTime : ℚ
  stateCurrentTime : ℚ
deriving DecidableEq, Repr

/-- `newTime = (clickX / width) * duration` with `clickX = clientX - rect.left`
(lines 186-188).  No clamping is applied. -/
def progressNewTime (clientX rectLeft width duration : ℚ) : ℚ :=
  ((clientX - rectLeft) / width) * duration

/-- `handleProgressInteraction` (lines 180-192): the same computed time is
written to the transport and to `currentTime`. -/
def handleProgressInteraction (clientX rectLeft width duration : ℚ) : SeekEffect :=
  { audioCurrentTime := progressNewTime clientX rectLeft width duration
    stateCurrentTime := progressNewTime clientX rectLeft width duration }

/-! ### Concrete instances used by the counterexamples and witnesses -/

/-- Concrete shared tracks: `trackA` has already exhausted its limit, `trackB`
is fresh and far under its limit, `trackC` reports the falsy limit `0`. -/
def trackA : ChestTrack :=
  { id := "a", token := some "tokA", plays := some 2, play_limit := some 1 }

def trackB : ChestTrack :=
  { id := "b", token := some "tokB", plays := some 0, play_limit := some 5 }

def trackC : ChestTrack :=
  { id := "c", token := some "tokC", plays := some 0, play_limit := some 0 }

/-- Gate state after mounting on `trackA` as a shared link. -/
def stateA : PlayLimitState := initEffect (some trackA) true initialState

/-- Gate state after the bound track then changes from `trackA` to `trackB`. -/
def stateB : PlayLimitState := initEffect (some trackB) true stateA

/-- Gate state after the bound track instead changes from `trackA` to `trackC`. -/
def stateC : PlayLimitState := initEffect (some trackC) true stateA

/-- A constant random stream: every draw is index `1`. -/
def rOne : ℕ → ℤ := fun _ => 1

/-- The default player state with shuffle switched on. -/
def stShuffled : PlayerState := { initialPlayerState with isShuffled := true }

/-- The invariant actually maintained by the gate: the stored limit is never
the (falsy) literal `0`, and a met limit is always flagged.  The converse of
the second conjunct — that the flag implies a met limit — is what the spec
claims and what the code does not maintain. -/
def GoodState (s : PlayLimitState) : Prop :=
  s.playLimit ≠ some 0 ∧
    (limitMet s.playLimit s.playCount = true → s.isLimitReached = true)

/-! ### Helper lemmas -/

lemma jsOrNull_ne_some_zero (x : Option Nat) : jsOrNull x ≠ some 0 := by
  cases x with
  | none => simp [jsOrNull]
  | some n =>
    by_cases h : n = 0 <;> simp [jsOrNull, h]

lemma limitMet_jsOrNull (x : Option Nat) (c : Nat) :
    limitMet (jsOrNull x) c = limitMet x c := by
  cases x with
  | none => rfl
  | some n =>
    by_cases h : n = 0 <;> simp [jsOrNull, limitMet, h]

lemma goodState_initialState : GoodState initialState := by
  constructor <;> simp [initialState, limitMet]

lemma goodState_initEffect (track : Option ChestTrack) (sh : Bool)
    (s : PlayLimitState) : GoodState (initEffect track sh s) := by
  cases track with
  | none => exact goodState_initialState
  | some t =>
    by_cases hsh : sh
    · refine ⟨?_, ?_⟩
      · simpa [initEffect, hsh] using jsOrNull_ne_some_zero t.play_limit
      · intro hmet
        simp only [initEffect, hsh, if_true] at hmet ⊢
        rw [limitMet_jsOrNull] at hmet
        simp [hmet]
    · simpa [initEffect, hsh] using goodState_initialState

lemma goodState_check (sh : Bool) (s : PlayLimitState) (h : GoodState s) :
    GoodState (checkPlayLimit sh s).2 := by
  unfold checkPlayLimit
  split
  · exact h
  · split
    · exact ⟨h.1, fun _ => rfl⟩
    · exact h

lemma goodState_decrement (track : Option ChestTrack) (sh : Bool)
    (outcome : Option Bool) (s : PlayLimitState) (h : GoodState s) :
    GoodState (decrementPlayCount track sh outcome s).1 := by
  unfold decrementPlayCount
  split
  · exact h
  · match outcome with
    | some true =>
      refine ⟨h.1, fun hmet => ?_⟩
      simp only [decResolve] at hmet ⊢
      simp [hmet]
    | some false => exact h
    | none => exact h

lemma reachable_goodState {cfg : GateConfig} (h : Reachable cfg) :
    GoodState cfg.state := by
  induction h with
  | mount track sh => exact goodState_initEffect track sh initialState
  | check cfg _ ih => exact goodState_check cfg.isSharedLink cfg.state ih
  | record cfg outcome _ ih =>
    exact goodState_decrement cfg.track cfg.isSharedLink outcome cfg.state ih
  | identityChange cfg track sh _ _ _ => exact goodState_initEffect track sh cfg.state

/-- Once `isLimitReached` is set, `checkPlayLimit` never clears it. -/
lemma check_preserves_reached (sh : Bool) (s : PlayLimitState)
    (h : s.isLimitReached = true) : (checkPlayLimit sh s).2.isLimitReached = true := by
  unfold checkPlayLimit
  split
  · exact h
  · split
    · rfl
    · exact h

/-- Once `isLimitReached` is set, `decrementPlayCount` is a no-op. -/
lemma decrement_of_reached (track : Option ChestTrack) (sh : Bool)
    (outcome : Option Bool) (s : PlayLimitState) (h : s.isLimitReached = true) :
    decrementPlayCount track sh outcome s = (s, false) := by
  unfold decrementPlayCount
  rw [if_pos]
  simp [decGuard, h]

lemma reachable_stateA : Reachable ⟨some trackA, true, stateA⟩ :=
  Reachable.mount (some trackA) true

lemma reachable_stateB : Reachable ⟨some trackB, true, stateB⟩ :=
  Reachable.identityChange ⟨some trackA, true, stateA⟩ (some trackB) true
    reachable_stateA (by decide)

lemma reachable_stateC : Reachable ⟨some trackC, true, stateC⟩ :=
  Reachable.identityChange ⟨some trackA, true, stateA⟩ (some trackC) true
    reachable_stateA (by decide)

/-- Any property of every draw holds of the loop's result. -/
lemma shufflePick_sat {P : ℤ → Prop} (r : ℕ → ℤ) (len : ℕ) (c : ℤ)
    (h : ∀ k, P (r k)) (fuel k : ℕ) : P (shufflePick r len c fuel k) := by
  induction fuel generalizing k with
  | zero => exact h k
  | succ n ih =>
    simp only [shufflePick]
    split
    · exact ih (k + 1)
    · exact h k

/-- With more than one track, the loop result differs from the current index
as soon as some draw within the fuel budget differs from it. -/
lemma shufflePick_ne (r : ℕ → ℤ) (len : ℕ) (c : ℤ) (hlen : 1 < len)
    (fuel k j : ℕ) (hkj : k ≤ j) (hjf : j ≤ k + fuel) (hj : r j ≠ c) :
    shufflePick r len c fuel k ≠ c := by
  induction fuel generalizing k j with
  | zero =>
    have hjk : j = k := by omega
    subst hjk
    simpa [shufflePick] using hj
  | succ n ih =>
    simp only [shufflePick]
    split
    · next hcase =>
      have hne : j ≠ k := by
        intro e
        exact hj (e ▸ hcase.1)
      exact ih (k + 1) j (by omega) (by omega) hj
    · next hcase =>
      intro e
      exact hcase ⟨e, hlen⟩

lemma skipForward_currentTrackIndex (len : ℕ) (r : ℕ → ℤ) (fuel : ℕ)
    (st : PlayerState) :
    (skipForward len r fuel st).currentTrackIndex =
      if st.isShuffled then shufflePick r len st.currentTrackIndex fuel 0
      else if st.currentTrackIndex < (len : ℤ) - 1 then st.currentTrackIndex + 1
      else 0 := rfl

lemma skipBackward_restart (audioTime : ℚ) (len : ℕ) (r : ℕ → ℤ) (fuel : ℕ)
    (st : PlayerState) (h : 3 < audioTime) :
    skipBackward audioTime len r fuel st = { st with currentTime := 0 } := by
  unfold skipBackward
  rw [if_pos h]

lemma skipBackward_currentTrackIndex (audioTime : ℚ) (len : ℕ) (r : ℕ → ℤ)
    (fuel : ℕ) (st : PlayerState) (h : ¬ 3 < audioTime) :
    (skipBackward audioTime len r fuel st).currentTrackIndex =
      if st.isShuffled then shufflePick r len st.currentTrackIndex fuel 0
      else if 0 < st.currentTrackIndex then st.currentTrackIndex - 1
      else (len : ℤ) - 1 := by
  unfold skipBackward
  rw [if_neg h]

lemma skipBackward_currentTime (audioTime : ℚ) (len : ℕ) (r : ℕ → ℤ)
    (fuel : ℕ) (st : PlayerState) (h : ¬ 3 < audioTime) :
    (skipBackward audioTime len r fuel st).currentTime = st.currentTime := by
  unfold skipBackward
  rw [if_neg h]

/-! ### Claim theorems -/

/-- C2: `recordPlay` (`decrementPlayCount`) is a no-op — no state change and no
network request — whenever the track is absent, the link is not shared, the
limit is already reached, or a play was already recorded this mount; otherwise
it issues a single report-play request and, on success, increments `playCount`
by exactly 1, sets `hasDecremented`, leaves `playLimit` unchanged and
re-derives `isLimitReached` as "`playLimit` is set and the new count meets
it". -/
theorem C2_recordPlay_semantics (track : Option ChestTrack) (sh : Bool)
    (outcome : Option Bool) (s : PlayLimitState) (hgood : s.playLimit ≠ some 0) :
    ((track = none ∨ sh = false ∨ s.isLimitReached = true ∨ s.hasDecremented = true) →
      decrementPlayCount track sh outcome s = (s, false)) ∧
    (track ≠ none → sh = true → s.isLimitReached = false → s.hasDecremented = false →
      (decrementPlayCount track sh outcome s).2 = true ∧
      (outcome = some true →
        (decrementPlayCount track sh outcome s).1.playCount = s.playCount + 1 ∧
        (decrementPlayCount track sh outcome s).1.hasDecremented = true ∧
        (decrementPlayCount track sh outcome s).1.playLimit = s.playLimit ∧
        ((decrementPlayCount track sh outcome s).1.isLimitReached = true ↔
          ∃ l, s.playLimit = some l ∧ l ≤ s.playCount + 1))) := by
  constructor
  · intro hcase
    unfold decrementPlayCount
    rw [if_pos]
    rcases hcase with h | h | h | h <;> simp [decGuard, h]
  · intro h1 h2 h3 h4
    obtain ⟨t, rfl⟩ := Option.ne_none_iff_exists'.mp h1
    have hguard : decGuard (some t) sh s = false := by
      simp [decGuard, h2, h3, h4]
    constructor
    · unfold decrementPlayCount
      rw [if_neg (by simp [hguard])]
      cases outcome with
      | none => rfl
      | some b => cases b <;> rfl
    · rintro rfl
      unfold decrementPlayCount
      rw [if_neg (by simp [hguard])]
      refine ⟨rfl, rfl, rfl, ?_⟩
      show (decResolve s s).isLimitReached = true ↔ _
      simp only [decResolve, h3]
      cases hpl : s.playLimit with
      | none => simp [limitMet]
      | some l =>
        have hl : l ≠ 0 := by
          rintro rfl
          exact hgood hpl
        simp [limitMet, hl]

/-- C2 witness: on the fresh shared `trackB` at count `0`, a successful
recorded play yields count `1`. -/
theorem C2_recordPlay_semantics_witness :
    (decrementPlayCount (some trackB) true (some true)
      { playCount := 0, playLimit := some 5, isLimitReached := false,
        hasDecremented := false }).1.playCount = 1 :=
  (((C2_recordPlay_semantics (some trackB) true (some true)
      { playCount := 0, playLimit := some 5, isLimitReached := false,
        hasDecremented := false } (by decide)).2
    (by decide) rfl rfl rfl).2 rfl).1

/-- C3: when the report-play request throws, `recordPlay` swallows the error:
the state is completely unchanged (so `playCount`, `playLimit`,
`isLimitReached` and `canPlay` are untouched and `hasDecremented` stays
false), one request was issued, and the guard still passes afterwards so a
subsequent play intent can retry. -/
theorem C3_recordPlay_failure (track : Option ChestTrack) (sh : Bool)
    (s : PlayLimitState) (h1 : track ≠ none) (h2 : sh = true)
    (h3 : s.isLimitReached = false) (h4 : s.hasDecremented = false) :
    (decrementPlayCount track sh none s).1 = s ∧
    (decrementPlayCount track sh none s).2 = true ∧
    (decrementPlayCount track sh none s).1.hasDecremented = false ∧
    decGuard track sh (decrementPlayCount track sh none s).1 = false ∧
    canPlay sh (decrementPlayCount track sh none s).1 = canPlay sh s := by
  obtain ⟨t, rfl⟩ := Option.ne_none_iff_exists'.mp h1
  have hguard : decGuard (some t) sh s = false := by
    simp [decGuard, h2, h3, h4]
  have hrun : decrementPlayCount (some t) sh none s = (s, true) := by
    unfold decrementPlayCount
    rw [if_neg (by simp [hguard])]
  rw [hrun]
  exact ⟨rfl, rfl, h4, hguard, rfl⟩

/-- C3 witness: concrete failing request on shared `trackB`. -/
theorem C3_recordPlay_failure_witness :
    (decrementPlayCount (some trackB) true none
      { playCount := 0, playLimit := some 5, isLimitReached := false,
        hasDecremented := false }).1 =
      { playCount := 0, playLimit := some 5, isLimitReached := false,
        hasDecremented := false } :=
  (C3_recordPlay_failure (some trackB) true
    { playCount := 0, playLimit := some 5, isLimitReached := false,
      hasDecremented := false } (by decide) rfl rfl rfl).1

/-- C6: two `recordPlay` invocations in rapid succession on the same mount,
the second issued before the first resolves, both capture the same state; when
the guard allows them, two requests are issued and — both resolving
successfully — `playCount` ends at exactly the captured count plus 1, not
plus 2. -/
theorem C6_rapid_double (track : Option ChestTrack) (sh : Bool)
    (s0 : PlayLimitState) (hguard : decGuard track sh s0 = false) :
    (rapidDouble track sh s0).2 = 2 ∧
    (rapidDouble track sh s0).1.playCount = s0.playCount + 1 ∧
    (rapidDouble track sh s0).1.playCount ≠ s0.playCount + 2 ∧
    (rapidDouble track sh s0).1.hasDecremented = true := by
  unfold rapidDouble
  rw [if_neg (by simp [hguard])]
  refine ⟨rfl, rfl, ?_, rfl⟩
  show s0.playCount + 1 ≠ s0.playCount + 2
  omega

/-- C6 witness: the double invocation on shared `trackB` at count `0` ends at
count `1`. -/
theorem C6_rapid_double_witness :
    (rapidDouble (some trackB) true
      { playCount := 0, playLimit := some 5, isLimitReached := false,
        hasDecremented := false }).1.playCount = 1 :=
  (C6_rapid_double (some trackB) true
    { playCount := 0, playLimit := some 5, isLimitReached := false,
      hasDecremented := false } (by decide)).2.1

/-- C1 counterexample: the claim says `canPlay` is true exactly when the track
is not shared, the limit is unset, or the count is under the limit, in every
reachable state.  The reachable state `stateB` (shared `trackB`, count `0`,
limit `5`, `isLimitReached` carried over from `trackA`) has `canPlay = false`
while the claimed characterization evaluates to true. -/
theorem C1_counterexample :
    Reachable ⟨some trackB, true, stateB⟩ ∧
    stateB.playCount = 0 ∧ stateB.playLimit = some 5 ∧
    canPlay true stateB = false ∧
    specCanPlay true stateB = true :=
  ⟨reachable_stateB, by decide, by decide, by decide, by decide⟩

/-- C1 (amended): in every reachable gate state, `canPlay = true` implies the
track is not a shared link, or `playLimit` is unset, or
`playCount < playLimit` — but not conversely, since `isLimitReached` can
remain true from a previously bound track.  For a shared state with
`playLimit = L` and `playCount ≥ L` (so after the `L`-th recorded play)
`canPlay` is false, and it remains false under `checkPlayLimit` and
`recordPlay` — only a track-identity change can clear it. -/
theorem C1_canPlay_amended (cfg : GateConfig) (h : Reachable cfg) :
    (canPlay cfg.isSharedLink cfg.state = true →
      specCanPlay cfg.isSharedLink cfg.state = true) ∧
    (∀ L, cfg.isSharedLink = true → cfg.state.playLimit = some L →
      L ≤ cfg.state.playCount → canPlay cfg.isSharedLink cfg.state = false) ∧
    (canPlay cfg.isSharedLink cfg.state = false →
      canPlay cfg.isSharedLink (checkPlayLimit cfg.isSharedLink cfg.state).2 = false ∧
      ∀ outcome, canPlay cfg.isSharedLink
        (decrementPlayCount cfg.track cfg.isSharedLink outcome cfg.state).1 = false) := by
  obtain ⟨hne0, hlower⟩ := reachable_goodState h
  refine ⟨?_, ?_, ?_⟩
  · intro hcp
    cases hsh : cfg.isSharedLink with
    | false => simp [specCanPlay, hsh]
    | true =>
      have hr : cfg.state.isLimitReached = false := by
        simpa [canPlay, hsh] using hcp
      have hm : limitMet cfg.state.playLimit cfg.state.playCount = false := by
        cases hb : limitMet cfg.state.playLimit cfg.state.playCount with
        | false => rfl
        | true => rw [hlower hb] at hr; cases hr
      cases hpl : cfg.state.playLimit with
      | none => simp [specCanPlay, hpl]
      | some l =>
        have hl0 : l ≠ 0 := by
          rintro rfl
          exact hne0 hpl
        rw [hpl] at hm
        simp [limitMet, hl0] at hm
        simp [specCanPlay, hpl]
        omega
  · intro L hsh hpl hle
    have hL0 : L ≠ 0 := by
      rintro rfl
      exact hne0 hpl
    have hb : limitMet cfg.state.playLimit cfg.state.playCount = true := by
      rw [hpl]
      simp [limitMet, hL0, hle]
    simp [canPlay, hsh, hlower hb]
  · intro hcpf
    have hparts : cfg.isSharedLink = true ∧ cfg.state.isLimitReached = true := by
      constructor
      · cases hsh : cfg.isSharedLink with
        | false => rw [canPlay, hsh] at hcpf; cases hcpf
        | true => rfl
      · cases hr : cfg.state.isLimitReached with
        | false => rw [canPlay, hr] at hcpf; simp at hcpf
        | true => rfl
    obtain ⟨hsh, hr⟩ := hparts
    constructor
    · simp [canPlay, hsh, check_preserves_reached _ _ hr]
    · intro outcome
      rw [decrement_of_reached _ _ _ _ hr]
      exact hcpf

/-- C1 witness: at the reachable stale state `stateB`, `canPlay` is false and
stays false through a `checkPlayLimit` call. -/
theorem C1_canPlay_amended_witness :
    canPlay true (checkPlayLimit true stateB).2 = false :=
  (((C1_canPlay_amended ⟨some trackB, true, stateB⟩ reachable_stateB).2.2)
    (by decide)).1

/-- C4 counterexample: after the reachable identity change from exhausted
`trackA` to under-limit `trackB`, the code keeps `isLimitReached = true`,
whereas the claimed reset from the new track's counters would make it
false. -/
theorem C4_counterexample :
    Reachable ⟨some trackB, true, stateB⟩ ∧
    stateB = initEffect (some trackB) true stateA ∧
    stateB.isLimitReached = true ∧
    (specResetState trackB).isLimitReached = false :=
  ⟨reachable_stateB, rfl, by decide, by decide⟩

/-- C4 (amended): on a track-identity change to a shared track, `playCount`,
`playLimit` (with the falsy limit `0` normalized to `null`) and
`hasDecremented` reset from the new track's server-reported counters, but
`isLimitReached` only ORs in the new track's "limit already met" condition —
a true carried over from the previous track is not discarded.  All four
fields clear only when the new binding has no track or is not a shared
link. -/
theorem C4_reset_amended (t : ChestTrack) (s : PlayLimitState) :
    (initEffect (some t) true s).playCount = t.plays.getD 0 ∧
    (initEffect (some t) true s).playLimit = jsOrNull t.play_limit ∧
    (initEffect (some t) true s).hasDecremented = false ∧
    (initEffect (some t) true s).isLimitReached =
      (limitMet t.play_limit (t.plays.getD 0) || s.isLimitReached) ∧
    initEffect none true s = initialState ∧
    (∀ track, initEffect track false s = initialState) := by
  refine ⟨rfl, rfl, rfl, ?_, rfl, ?_⟩
  · cases hmet : limitMet t.play_limit (t.plays.getD 0) <;>
      simp [initEffect, hmet]
  · intro track
    cases track <;> simp [initEffect]

/-- C5 counterexample: the claimed invariant
`isLimitReached == (playLimit != null && playCount >= playLimit)` fails at
the reachable state `stateB`. -/
theorem C5_counterexample :
    Reachable ⟨some trackB, true, stateB⟩ ∧ ¬ specLimitInv stateB :=
  ⟨reachable_stateB, by unfold specLimitInv; decide⟩

/-- C5 (amended): in every reachable gate state only one direction of the
claimed invariant holds — a set limit that the count has met forces
`isLimitReached = true`; the converse can fail because a stale
`isLimitReached` survives shared-to-shared identity changes. -/
theorem C5_invariant_amended (cfg : GateConfig) (h : Reachable cfg) :
    (cfg.state.playLimit.isSome &&
      decide (cfg.state.playLimit.getD 0 ≤ cfg.state.playCount)) = true →
    cfg.state.isLimitReached = true := by
  intro hx
  obtain ⟨hne0, hlower⟩ := reachable_goodState h
  cases hpl : cfg.state.playLimit with
  | none => rw [hpl] at hx; simp at hx
  | some l =>
    rw [hpl] at hx
    simp only [Option.isSome_some, Option.getD_some, Bool.true_and,
      decide_eq_true_eq] at hx
    have hl0 : l ≠ 0 := by
      rintro rfl
      exact hne0 hpl
    exact hlower (by rw [hpl]; simp [limitMet, hl0, hx])

/-- C5 witness: the reachable mount state on exhausted `trackA` has its flag
set. -/
theorem C5_invariant_amended_witness : stateA.isLimitReached = true :=
  C5_invariant_amended ⟨some trackA, true, stateA⟩ reachable_stateA (by decide)

/-- C10 counterexample: a shared track whose `play_limit` is `0` is claimed to be
never blocked, yet binding it after an exhausted track leaves the reachable
gate blocked (`canPlay = false`) even though its stored limit is `null`. -/
theorem C10_counterexample :
    trackC.play_limit = some 0 ∧
    Reachable ⟨some trackC, true, stateC⟩ ∧
    stateC.playLimit = none ∧
    canPlay true stateC = false :=
  ⟨rfl, reachable_stateC, by decide, by decide⟩

/-- C10 (amended): a server-reported `play_limit` of `0` is treated as no
limit: the effect stores `playLimit = null` (and leaves `isLimitReached` as it
was), `checkPlayLimit` returns true and changes nothing whenever the stored
limit is falsy, and from any unblocked no-limit state (`playLimit = null`,
`isLimitReached = false`, e.g. a fresh mount) `canPlay` is true and every
`checkPlayLimit` or `recordPlay` event preserves that — only a stale
`isLimitReached` carried over from a previously bound track can block such a
track. -/
theorem C10_zero_limit_amended :
    (∀ (t : ChestTrack) (s : PlayLimitState), t.play_limit = some 0 →
      (initEffect (some t) true s).playLimit = none ∧
      (initEffect (some t) true s).isLimitReached = s.isLimitReached) ∧
    (∀ s : PlayLimitState, jsTruthy s.playLimit = false →
      checkPlayLimit true s = (true, s)) ∧
    (∀ (track : Option ChestTrack) (outcome : Option Bool) (s : PlayLimitState),
      s.playLimit = none → s.isLimitReached = false →
      canPlay true s = true ∧
      (checkPlayLimit true s).2.playLimit = none ∧
      (checkPlayLimit true s).2.isLimitReached = false ∧
      (decrementPlayCount track true outcome s).1.playLimit = none ∧
      (decrementPlayCount track true outcome s).1.isLimitReached = false) := by
  refine ⟨?_, ?_, ?_⟩
  · intro t s h
    constructor
    · simp [initEffect, h, jsOrNull]
    · simp [initEffect, h, limitMet]
  · intro s h
    unfold checkPlayLimit
    rw [if_pos]
    simp [h]
  · intro track outcome s hpl hr
    have hcheck : checkPlayLimit true s = (true, s) := by
      unfold checkPlayLimit
      rw [if_pos]
      simp [jsTruthy, hpl]
    have hdec : (decrementPlayCount track true outcome s).1.playLimit = none ∧
        (decrementPlayCount track true outcome s).1.isLimitReached = false := by
      unfold decrementPlayCount
      split
      · exact ⟨hpl, hr⟩
      · cases outcome with
        | none => exact ⟨hpl, hr⟩
        | some b =>
          cases b with
          | false => exact ⟨hpl, hr⟩
          | true =>
            refine ⟨hpl, ?_⟩
            simp [decResolve, limitMet, hpl, hr]
    exact ⟨by simp [canPlay, hr], by rw [hcheck]; exact hpl,
      by rw [hcheck]; exact hr, hdec.1, hdec.2⟩

/-- C10 witness: mounting `trackC` (limit `0`) on a fresh gate stores no limit
and leaves the gate unblocked. -/
theorem C10_zero_limit_amended_witness :
    (initEffect (some trackC) true initialState).playLimit = none ∧
    canPlay true (initEffect (some trackC) true initialState) = true :=
  ⟨(C10_zero_limit_amended.1 trackC initialState rfl).1,
    (C10_zero_limit_amended.2.2 none none
      (initEffect (some trackC) true initialState) (by decide) (by decide)).1⟩

/-- C7 counterexample: the claim says a seek target mapping to `-5` with
duration `200` is clamped to `0`.  With the progress bar at left `0` and width
`100`, a pointer at `clientX = -5/2` maps to `-5`, and the handler stores `-5`
— not `0` — as the new current time. -/
theorem C7_counterexample :
    (handleProgressInteraction (-(5 / 2)) 0 100 200).stateCurrentTime = -5 ∧
    (handleProgressInteraction (-(5 / 2)) 0 100 200).stateCurrentTime ≠ 0 := by
  constructor <;> norm_num [handleProgressInteraction, progressNewTime]

/-- C7 (amended): a seek/scrub intent maps the pointer position linearly to a
fraction of the duration with NO clamping — the same raw value, even outside
`[0, duration]`, is applied to the transport and to `currentTime`: the target
mapping to `-5` with duration `200` yields `-5`, and the one mapping to `250`
yields `250`. -/
theorem C7_seek_amended :
    (∀ clientX rectLeft width duration : ℚ,
      (handleProgressInteraction clientX rectLeft width duration).audioCurrentTime =
        ((clientX - rectLeft) / width) * duration ∧
      (handleProgressInteraction clientX rectLeft width duration).stateCurrentTime =
        (handleProgressInteraction clientX rectLeft width duration).audioCurrentTime) ∧
    (handleProgressInteraction (-(5 / 2)) 0 100 200).audioCurrentTime = -5 ∧
    (handleProgressInteraction 125 0 100 200).audioCurrentTime = 250 := by
  refine ⟨fun cX rL w d => ⟨rfl, rfl⟩, ?_, ?_⟩ <;>
    norm_num [handleProgressInteraction, progressNewTime]

/-- C8: skip-backward restarts the current track (time `0`, index unchanged)
when the transport position exceeds 3 seconds; otherwise it moves to the
previous index, wrapping to the last index from index `0`, and with shuffle
on it draws a random in-range index different from the current one (given
more than one track and an adequate draw within the loop's fuel). -/
theorem C8_skipBackward_semantics (audioTime : ℚ) (len : ℕ) (r : ℕ → ℤ)
    (fuel : ℕ) (st : PlayerState) :
    (3 < audioTime →
      skipBackward audioTime len r fuel st = { st with currentTime := 0 }) ∧
    (audioTime ≤ 3 → st.isShuffled = false →
      (skipBackward audioTime len r fuel st).currentTrackIndex =
        (if 0 < st.currentTrackIndex then st.currentTrackIndex - 1
          else (len : ℤ) - 1) ∧
      (skipBackward audioTime len r fuel st).currentTime = st.currentTime) ∧
    (audioTime ≤ 3 → st.isShuffled = true → 1 < len →
      (∀ k, 0 ≤ r k ∧ r k < (len : ℤ)) →
      (∃ j, j ≤ fuel ∧ r j ≠ st.currentTrackIndex) →
      (skipBackward audioTime len r fuel st).currentTrackIndex ≠
        st.currentTrackIndex ∧
      0 ≤ (skipBackward audioTime len r fuel st).currentTrackIndex ∧
      (skipBackward audioTime len r fuel st).currentTrackIndex < (len : ℤ)) := by
  refine ⟨?_, ?_, ?_⟩
  · intro h
    exact skipBackward_restart audioTime len r fuel st h
  · intro h hsf
    rw [skipBackward_currentTrackIndex audioTime len r fuel st (not_lt.mpr h),
      skipBackward_currentTime audioTime len r fuel st (not_lt.mpr h)]
    rw [hsf]
    exact ⟨rfl, rfl⟩
  · rintro h hst hlen hr ⟨j, hjf, hj⟩
    rw [skipBackward_currentTrackIndex audioTime len r fuel st (not_lt.mpr h), hst]
    have hrange := shufflePick_sat (P := fun x => 0 ≤ x ∧ x < (len : ℤ))
      r len st.currentTrackIndex hr fuel 0
    exact ⟨shufflePick_ne r len st.currentTrackIndex hlen fuel 0 j
      (Nat.zero_le j) (by omega) hj, hrange.1, hrange.2⟩

/-- C8 witness: at transport position `1`, shuffled among 3 tracks with every
draw landing on index `1`, skip-backward leaves index `0` for index `1`. -/
theorem C8_skipBackward_semantics_witness :
    (skipBackward 1 3 rOne 5 stShuffled).currentTrackIndex ≠
      stShuffled.currentTrackIndex :=
  ((C8_skipBackward_semantics 1 3 rOne 5 stShuffled).2.2 (by norm_num) rfl
    (by norm_num) (fun k => ⟨by norm_num [rOne], by norm_num [rOne]⟩)
    ⟨0, Nat.zero_le 5, by decide⟩).1

/-- C9: for a non-empty list of `N` tracks, every skip-forward or
skip-backward — shuffled or not, with in-range random draws — leaves
`currentTrackIndex` in `[0, N)`; with exactly one track a shuffled skip never
changes the index; with an empty list the player renders nothing. -/
theorem C9_index_invariant :
    (∀ (len : ℕ) (r : ℕ → ℤ) (fuel : ℕ) (st : PlayerState) (audioTime : ℚ),
      0 < len → 0 ≤ st.currentTrackIndex → st.currentTrackIndex < (len : ℤ) →
      (∀ k, 0 ≤ r k ∧ r k < (len : ℤ)) →
      (0 ≤ (skipForward len r fuel st).currentTrackIndex ∧
        (skipForward len r fuel st).currentTrackIndex < (len : ℤ)) ∧
      (0 ≤ (skipBackward audioTime len r fuel st).currentTrackIndex ∧
        (skipBackward audioTime len r fuel st).currentTrackIndex < (len : ℤ))) ∧
    (∀ (r : ℕ → ℤ) (fuel : ℕ) (st : PlayerState) (audioTime : ℚ),
      st.isShuffled = true → 0 ≤ st.currentTrackIndex →
      st.currentTrackIndex < (1 : ℤ) → (∀ k, 0 ≤ r k ∧ r k < (1 : ℤ)) →
      (skipForward 1 r fuel st).currentTrackIndex = st.currentTrackIndex ∧
      (skipBackward audioTime 1 r fuel st).currentTrackIndex =
        st.currentTrackIndex) ∧
    (∀ idx : ℤ, rendersPlayer [] idx = false) := by
  refine ⟨?_, ?_, ?_⟩
  · intro len r fuel st audioTime hlen h0 hup hr
    have hin : ∀ v : ℤ,
        (v = if st.isShuffled then shufflePick r len st.currentTrackIndex fuel 0
          else if st.currentTrackIndex < (len : ℤ) - 1 then st.currentTrackIndex + 1
          else 0) → 0 ≤ v ∧ v < (len : ℤ) := by
      intro v hv
      cases hsf : st.isShuffled with
      | true =>
        rw [hsf] at hv
        simp only [if_true] at hv
        rw [hv]
        exact shufflePick_sat (P := fun x => 0 ≤ x ∧ x < (len : ℤ))
          r len st.currentTrackIndex hr fuel 0
      | false =>
        rw [hsf] at hv
        simp only [Bool.false_eq_true, if_false] at hv
        rw [hv]
        split_ifs with hlt
        · constructor <;> omega
        · constructor <;> omega
    have hinb : ∀ v : ℤ,
        (v = if st.isShuffled then shufflePick r len st.currentTrackIndex fuel 0
          else if 0 < st.currentTrackIndex then st.currentTrackIndex - 1
          else (len : ℤ) - 1) → 0 ≤ v ∧ v < (len : ℤ) := by
      intro v hv
      cases hsf : st.isShuffled with
      | true =>
        rw [hsf] at hv
        simp only [if_true] at hv
        rw [hv]
        exact shufflePick_sat (P := fun x => 0 ≤ x ∧ x < (len : ℤ))
          r len st.currentTrackIndex hr fuel 0
      | false =>
        rw [hsf] at hv
        simp only [Bool.false_eq_true, if_false] at hv
        rw [hv]
        split_ifs with hlt
        · constructor <;> omega
        · constructor <;> omega
    refine ⟨hin _ (skipForward_currentTrackIndex len r fuel st), ?_⟩
    by_cases h3 : 3 < audioTime
    · rw [skipBackward_restart audioTime len r fuel st h3]
      exact ⟨h0, hup⟩
    · exact hinb _ (skipBackward_currentTrackIndex audioTime len r fuel st h3)
  · intro r fuel st audioTime hsf h0 hup hr
    have hidx : st.currentTrackIndex = 0 := by omega
    have hr0 : ∀ k, r k = 0 := by
      intro k
      have := hr k
      omega
    have hpick : shufflePick r 1 st.currentTrackIndex fuel 0 = st.currentTrackIndex := by
      rw [hidx]
      exact shufflePick_sat (P := fun x => x = 0) r 1 0 hr0 fuel 0
    constructor
    · rw [skipForward_currentTrackIndex 1 r fuel st, hsf]
      simpa using hpick
    · by_cases h3 : 3 < audioTime
      · rw [skipBackward_restart audioTime 1 r fuel st h3]
      · rw [skipBackward_currentTrackIndex audioTime 1 r fuel st h3, hsf]
        simpa using hpick
  · intro idx
    have hnone : currentTrack [] idx = none := by
      unfold currentTrack
      rw [dif_neg]
      simp
    simp [rendersPlayer, hnone]

/-- C9 witness: a non-shuffled skip-forward among two tracks from the default
state lands in range. -/
theorem C9_index_invariant_witness :
    0 ≤ (skipForward 2 rOne 3 initialPlayerState).currentTrackIndex ∧
    (skipForward 2 rOne 3 initialPlayerState).currentTrackIndex < (2 : ℤ) :=
  ((C9_index_invariant.1 2 rOne 3 initialPlayerState 0 (by norm_num)
    (by decide) (by decide)
    (fun k => ⟨by norm_num [rOne], by norm_num [rOne]⟩)).1)

end ChestPlayer
